import Mathlib

/-!
Verification development for the `sleepiness` passenger-state pipeline
(`sleepiness/pipelines.py`).

Shallow embedding conventions:
* Images (numpy arrays / PIL images) are modelled by `Img`: a height, a
  width, and a pixel function.  Pixel values are abstract naturals.
* Python float arithmetic on the small crop fractions (0.8, 0.25, 0.75,
  0.5) is modelled over `ℚ`; at every concrete size appearing in the
  claims (widths/heights of 100) the float computations of the source
  are exact, so the rational model agrees with the code.
* Python `int(...)` (truncation toward zero) is `pyint`.
* The four perception models (emptiness detector, face locator, eye
  locator, eye/face classifiers, hand detector) are external
  collaborators loaded from artifacts; the pipeline consumes them only
  through `predict`-like calls.  They are modelled as function-valued
  fields of `FullModels` / `NoEyeModels`, universally quantified in the
  theorems ("for all stage-adapter outputs").
* Early `return` statements are translated into nested `if ... else`
  with the running `state` variable threaded through, preserving the
  source's order of stage evaluation and its overwriting semantics.
* The second component of `fullClassify` / `noEyeClassify` records
  whether the diagnostic visualizer was invoked (and hence whether a
  diagnostic file was written) during the call.
-/

/-- Modelled from the spec: `PassengerState` is the closed enumeration
of terminal labels of the `sleepiness` package (the enum itself lives
outside `pipelines.py`): AWAKE, SLEEPING, NOTTHERE. -/
inductive PassengerState where
  | AWAKE : PassengerState
  | SLEEPING : PassengerState
  | NOTTHERE : PassengerState
deriving DecidableEq, Repr

/-- An image: a raw pixel buffer with a height, a width and a pixel
lookup (row, column).  Stands for the numpy arrays of the source. -/
structure Img where
  height : ℕ
  width : ℕ
  pix : ℕ → ℕ → ℕ

/-- A bounding box `(xmin, xmax, ymin, ymax)` in pixel coordinates of
some reference frame, as used throughout `pipelines.py`. -/
abbrev Box : Type := ℤ × ℤ × ℤ × ℤ

/-- Python `int(q)`: truncation toward zero. -/
def pyint (q : ℚ) : ℤ :=
  if 0 ≤ q then ⌊q⌋ else ⌈q⌉

/-- `crop_vertically` of `pipelines.py`: crops the lower 20% of an
image, i.e. keeps rows `[0, int(height * 0.8))`.  The `min` mirrors
numpy slice clamping (it never bites, since `int(0.8·h) ≤ h`). -/
def crop_vertically (img : Img) : Img :=
  let cropped_height : ℕ := (pyint ((img.height : ℚ) * 0.8)).toNat
  { height := min cropped_height img.height
    width := img.width
    pix := img.pix }

/-- `crop_horizontally` of `pipelines.py`: keeps only the middle 50%
of the columns, `[int(width * 0.25), int(width * 0.75))`. -/
def crop_horizontally (img : Img) : Img :=
  let xmin : ℕ := (pyint ((img.width : ℚ) * 0.25)).toNat
  let xmax : ℕ := (pyint ((img.width : ℚ) * 0.75)).toNat
  { height := img.height
    width := min xmax img.width - xmin
    pix := fun r c => img.pix r (xmin + c) }

/-- One raw detection record of the hand model's `inference` call:
`(id, name, confidence, x, y, w, h)`. -/
structure HandDetection where
  id : ℕ
  name : String
  confidence : ℚ
  x : ℤ
  y : ℤ
  w : ℤ
  h : ℤ
deriving DecidableEq

/-- `FullPipeline.detect_hands`: runs the hand model on an image and
returns a flag ("at least one hand detected") together with the list of
`(xmin, xmax, ymin, ymax)` boxes.  `hand_model` stands for
`hand_model.inference` (whose width/height/time outputs are unused). -/
def detect_hands (hand_model : Img → List HandDetection) (img : Img) :
    Bool × List Box :=
  let results := hand_model img
  let hand_count := results.length
  let hand_xxyy := results.map (fun r => (r.x, r.x + r.w, r.y, r.y + r.h))
  if hand_count = 0 then (false, hand_xxyy) else (true, hand_xxyy)

/-- `FullPipeline.open_eye_classify`: classifies each eye region
independently with the eye classifier, returning the list of per-region
labels (argmax of the classifier's log-probabilities; open eyes have
label 1).  `eye_classifier` stands for the composite
"transform, forward pass, argmax" applied to one region. -/
def open_eye_classify (eye_classifier : Img → ℕ) (eye_regions : List Img) :
    List ℕ :=
  eye_regions.map eye_classifier

/-- `FullPipeline.transform_xxyy_for_cropped_img`: maps a bounding box
measured in a horizontally cropped image back to the full image by
adding the offset `full_width * (1 - keep_horizontal) / 2` to the
x-coordinates and `0` to the y-coordinates, truncating with `int`. -/
def transform_xxyy_for_cropped_img (full_img : Img) (xxyy : Box)
    (keep_horizontal : ℚ) : Box :=
  let x_off : ℚ := (full_img.width : ℚ) * (1 - keep_horizontal) / 2
  let y_off : ℚ := 0
  (pyint ((xxyy.1 : ℚ) + x_off), pyint ((xxyy.2.1 : ℚ) + x_off),
   pyint ((xxyy.2.2.1 : ℚ) + y_off), pyint ((xxyy.2.2.2 : ℚ) + y_off))

/-- Stage adapters of `FullPipeline` for one classification call:
* `is_empty_model`: the emptiness detector, i.e.
  `is_empty (empty_preprocessor ·) 0.08 AVGMAP`;
* `faceDetect`: `facedetect.detect`, returning the selected face
  sub-image and its box when a face is found;
* `eyeDetect`: `eye.detect` on the face image (confidence baked in),
  returning `(eye_regions, eye_xxyy)`;
* `eye_classifier`: per-region eye-state classification (argmax label);
* `hand_model`: the hand model's inference. -/
structure FullModels where
  is_empty_model : Img → Bool
  faceDetect : Img → Option (Img × Box)
  eyeDetect : Img → List Img × List Box
  eye_classifier : Img → ℕ
  hand_model : Img → List HandDetection

/-- Stage adapters of `NoEyePipeline`: emptiness detector, face
locator, and `smallface.classify` (label 0 = awake, 1 = sleeping).
This variant has no eye stage and no hand stage. -/
structure NoEyeModels where
  is_empty_model : Img → Bool
  faceDetect : Img → Option (Img × Box)
  face_classification : Img → ℕ

/-- Steps 2–3 of `FullPipeline.classify`: a face is detected, at least
one eye region is found on it, and `any(eye_labels)` holds (some
per-region label is nonzero). -/
def eyeOpenStage (m : FullModels) (img : Img) : Bool :=
  match m.faceDetect img with
  | none => false
  | some fr =>
      let det := m.eyeDetect fr.1
      let eye_regions := det.1
      if eye_regions.length > 0 then
        (open_eye_classify m.eye_classifier eye_regions).any (fun l => l != 0)
      else false

/-- `FullPipeline.classify` on an already-decoded image.  The second
component records whether `visualize` ran (a diagnostic file was
written).  Mirrors the source's control flow: default state SLEEPING;
empty seat sets NOTTHERE (early return unless `viz`); an open eye sets
AWAKE (early return unless `viz`); a hand in the cropped image sets
AWAKE (early return unless `viz`); otherwise the threaded state is
returned, after visualization when `viz`. -/
def fullClassify (m : FullModels) (img : Img) (viz : Bool) :
    PassengerState × Bool :=
  let state1 := PassengerState.SLEEPING
  if m.is_empty_model img && !viz then (PassengerState.NOTTHERE, false)
  else
    let state2 := if m.is_empty_model img then PassengerState.NOTTHERE else state1
    if eyeOpenStage m img && !viz then (PassengerState.AWAKE, false)
    else
      let state3 := if eyeOpenStage m img then PassengerState.AWAKE else state2
      let croppedImg := crop_horizontally (crop_vertically img)
      let hands := detect_hands m.hand_model croppedImg
      if hands.1 && !viz then (PassengerState.AWAKE, false)
      else
        let state4 := if hands.1 then PassengerState.AWAKE else state3
        (state4, viz)

/-- `NoEyePipeline.classify` on an already-decoded image.  The second
component records whether `visualize` ran.  A detected face is
classified by `smallface.classify`: label 0 sets AWAKE, any other label
sets SLEEPING (early return unless `viz`). -/
def noEyeClassify (m : NoEyeModels) (img : Img) (viz : Bool) :
    PassengerState × Bool :=
  if m.is_empty_model img && !viz then (PassengerState.NOTTHERE, false)
  else
    let state2 := if m.is_empty_model img then PassengerState.NOTTHERE
      else PassengerState.SLEEPING
    match m.faceDetect img with
    | some fr =>
        if m.face_classification fr.1 = 0 then
          if !viz then (PassengerState.AWAKE, false) else (PassengerState.AWAKE, true)
        else
          if !viz then (PassengerState.SLEEPING, false) else (PassengerState.SLEEPING, true)
    | none => (state2, viz)

/-- Declared default of the `viz` parameter of `FullPipeline.classify`
(`viz : bool = False`, line 282). -/
def FullPipeline.classifyVizDefault : Bool := false

/-- Declared default of the `viz` parameter of `NoEyePipeline.classify`
(`viz : bool = True`, line 399). -/
def NoEyePipeline.classifyVizDefault : Bool := true

/-- The image-loading failure of `classify`: the `assert img is not
None` that fires when the path does not decode (the spec's
`ImageLoadError` kind). -/
inductive ClassifyError where
  | ImageLoadError : ClassifyError
deriving DecidableEq

/-- The image-reading prologue shared by both `classify` methods: a
path argument is decoded with `cv2.imread` (modelled by `decode`,
`none` = not decodable); an image argument is used as is. -/
def readImage (decode : String → Option Img) (img_or_path : String ⊕ Img) :
    Option Img :=
  match img_or_path with
  | Sum.inl p => decode p
  | Sum.inr i => some i

/-- `FullPipeline.classify` including its image-loading prologue:
fails with `ImageLoadError` when the input does not decode. -/
def fullClassifyChecked (decode : String → Option Img) (m : FullModels)
    (img_or_path : String ⊕ Img) (viz : Bool) :
    Except ClassifyError (PassengerState × Bool) :=
  match readImage decode img_or_path with
  | none => Except.error ClassifyError.ImageLoadError
  | some img => Except.ok (fullClassify m img viz)

/-- `NoEyePipeline.classify` including its image-loading prologue. -/
def noEyeClassifyChecked (decode : String → Option Img) (m : NoEyeModels)
    (img_or_path : String ⊕ Img) (viz : Bool) :
    Except ClassifyError (PassengerState × Bool) :=
  match readImage decode img_or_path with
  | none => Except.error ClassifyError.ImageLoadError
  | some img => Except.ok (noEyeClassify m img viz)

/-- A heap of mutable image buffers, addressed by identifiers.  Models
the aliasing of numpy arrays: `cv2.rectangle` / `cv2.putText` mutate
the buffer they are handed in place. -/
abbrev Heap : Type := ℕ → Img

/-- In-place mutation of one buffer of the heap. -/
def updateBuf (h : Heap) (i : ℕ) (f : Img → Img) : Heap :=
  fun j => if j = i then f (h j) else h j

/-- The drawing primitives of cv2, kept abstract (their pixel-level
semantics are external to the repository): `rectangle img corner1
corner2 color thickness` and `putText img line position color
thickness` (font, scale and line type of the source are fixed
constants and elided). -/
structure DrawOps where
  rectangle : Img → ℤ × ℤ → ℤ × ℤ → ℕ × ℕ × ℕ → ℕ → Img
  putText : Img → String → ℤ × ℤ → ℕ × ℕ × ℕ → ℕ → Img

/-- `np.hstack` of two images: horizontal concatenation. -/
def hstack (a b : Img) : Img :=
  { height := a.height
    width := a.width + b.width
    pix := fun r c => if c < a.width then a.pix r c else b.pix r (c - a.width) }

/-- `FullPipeline.visualize` over the buffer heap.  `origId` addresses
`original_img`; `newId` is the fresh buffer allocated by
`original_img.copy()` for `img_with_boxes`.  Face, eye and hand boxes
are drawn on `img_with_boxes` (eye boxes offset by the face box's
xmin/ymin, hand boxes remapped from the cropped frame with the default
keep fraction 0.5), the trace text is written line by line with a
vertical spacing of 20 starting at (20, 15), and the side-by-side
composite `hstack(original_img, img_with_boxes)` is written to
`full_pipeline_eval/<label>_<uuid>.jpg` — the returned list of
`(filename, contents)` pairs records that single file write.  The final
`Bool` is `true` on the source's crash path: when `face_xxyy` is `None`
and the eye list is non-empty, the eye loop raises a `TypeError`
(`eye_xxyy[0] + face_xxyy[0]` with `face_xxyy = None`) and nothing is
written. -/
def FullPipeline.visualize (ops : DrawOps) (h : Heap) (origId newId : ℕ)
    (face_xxyy : Option Box) (eyes_xxyy : List Box) (hands_xxyy : List Box)
    (label text uuid : String) : Heap × List (String × Img) × Bool :=
  let h1 : Heap := fun j => if j = newId then h origId else h j
  let h2 : Heap :=
    match face_xxyy with
    | some f => updateBuf h1 newId (fun im =>
        ops.rectangle im (f.1, f.2.2.1) (f.2.1, f.2.2.2) (0, 255, 0) 2)
    | none => h1
  if face_xxyy = none ∧ eyes_xxyy ≠ [] then
    (h2, [], true)
  else
    let f := face_xxyy.getD (0, 0, 0, 0)
    let h3 : Heap := eyes_xxyy.foldl (fun acc e =>
        updateBuf acc newId (fun im =>
          ops.rectangle im (e.1 + f.1, e.2.2.1 + f.2.2.1)
            (e.2.1 + f.1, e.2.2.2 + f.2.2.1) (0, 0, 255) 2)) h2
    let h4 : Heap := hands_xxyy.foldl (fun acc hb =>
        updateBuf acc newId (fun im =>
          ops.rectangle im
            ((transform_xxyy_for_cropped_img (acc origId) hb 0.5).1,
             (transform_xxyy_for_cropped_img (acc origId) hb 0.5).2.2.1)
            ((transform_xxyy_for_cropped_img (acc origId) hb 0.5).2.1,
             (transform_xxyy_for_cropped_img (acc origId) hb 0.5).2.2.2)
            (255, 0, 0) 2)) h3
    let h5 : Heap := ((text.splitOn "\n").enum).foldl (fun acc li =>
        updateBuf acc newId (fun im =>
          ops.putText im li.2 (20, 15 + (li.1 : ℤ) * 20) (0, 0, 0) 1)) h4
    (h5,
     [("full_pipeline_eval/" ++ label ++ "_" ++ uuid ++ ".jpg",
       hstack (h5 origId) (h5 newId))],
     false)

/-! ## Helper lemmas -/

/-- Truncation of an integer is the integer itself. -/
lemma pyint_intCast (z : ℤ) : pyint ((z : ℚ)) = z := by
  unfold pyint
  split <;> simp

/-- Truncating `z + q` for a nonnegative integer `z` and a nonnegative
rational `q` adds `z` to the floor of `q`. -/
lemma pyint_intCast_add (z : ℤ) (q : ℚ) (hz : 0 ≤ z) (hq : 0 ≤ q) :
    pyint ((z : ℚ) + q) = z + ⌊q⌋ := by
  unfold pyint
  rw [if_pos (by positivity)]
  exact Int.floor_int_add z q

/-- A positive eye label makes `eyeOpenStage` fire. -/
lemma eyeOpenStage_of_mem (m : FullModels) (img faceImg : Img) (faceBox : Box)
    (hF : m.faceDetect img = some (faceImg, faceBox))
    (hMem : 1 ∈ open_eye_classify m.eye_classifier (m.eyeDetect faceImg).1) :
    eyeOpenStage m img = true := by
  obtain ⟨r, hr, hcl⟩ := List.mem_map.mp hMem
  have hlen : 0 < (m.eyeDetect faceImg).1.length :=
    List.length_pos.mpr (List.ne_nil_of_mem hr)
  simp only [eyeOpenStage, hF]
  rw [if_pos hlen]
  exact List.any_eq_true.mpr ⟨1, hMem, rfl⟩

/-- When no face is detected the eye stage cannot fire. -/
lemma eyeOpenStage_of_noface (m : FullModels) (img : Img)
    (hF : m.faceDetect img = none) : eyeOpenStage m img = false := by
  simp [eyeOpenStage, hF]

/-! ## C3: any open eye wins in the Full variant -/

/-- C3: In the Full variant, on a non-empty seat with a detected face
and at least one detected eye region, if at least one eye region is
classified as open (label 1) then `classify` returns AWAKE — whatever
the other regions' labels and whatever the hand stage reports — in both
the diagnostic and the non-diagnostic mode.  The any-open-eye rule is
evaluated by the orchestrator (`eyeOpenStage` over the per-region
labels produced by `open_eye_classify`). -/
theorem full_any_open_eye_awake (m : FullModels) (img faceImg : Img)
    (faceBox : Box) (viz : Bool)
    (hE : m.is_empty_model img = false)
    (hF : m.faceDetect img = some (faceImg, faceBox))
    (hMem : 1 ∈ open_eye_classify m.eye_classifier (m.eyeDetect faceImg).1) :
    (fullClassify m img viz).1 = PassengerState.AWAKE := by
  have hO := eyeOpenStage_of_mem m img faceImg faceBox hF hMem
  cases viz <;> simp [fullClassify, hE, hO]

/-- Witness for `full_any_open_eye_awake`: two eye regions, one closed
(label 0) and one open (label 1). -/
theorem full_any_open_eye_awake_witness :
    (fullClassify
      (FullModels.mk (fun _ => false)
        (fun _ => some (Img.mk 8 8 (fun _ _ => 0), (1, 3, 1, 3)))
        (fun _ => ([Img.mk 1 1 (fun _ _ => 0), Img.mk 1 1 (fun _ _ => 1)],
                   [(0, 1, 0, 1), (2, 3, 0, 1)]))
        (fun r => r.pix 0 0)
        (fun _ => []))
      (Img.mk 8 8 (fun _ _ => 5)) false).1 = PassengerState.AWAKE :=
  full_any_open_eye_awake
    (FullModels.mk (fun _ => false)
      (fun _ => some (Img.mk 8 8 (fun _ _ => 0), (1, 3, 1, 3)))
      (fun _ => ([Img.mk 1 1 (fun _ _ => 0), Img.mk 1 1 (fun _ _ => 1)],
                 [(0, 1, 0, 1), (2, 3, 0, 1)]))
      (fun r => r.pix 0 0)
      (fun _ => []))
    (Img.mk 8 8 (fun _ _ => 5)) (Img.mk 8 8 (fun _ _ => 0)) (1, 3, 1, 3)
    false rfl rfl (by decide)

/-! ## C4: NoEye variant face decisions -/

/-- C4: In the NoEye variant, on a non-empty seat: a detected face
classified as label 0 yields AWAKE; a detected face classified as
label 1 yields SLEEPING (a detected face always yields a terminal
decision); and when no face is detected the result is the default
SLEEPING — in both modes, and with no hand stage in the model at all
(`NoEyeModels` has no hand adapter). -/
theorem noeye_face_decisions (m : NoEyeModels) (img : Img) (viz : Bool)
    (hE : m.is_empty_model img = false) :
    (∀ faceImg faceBox, m.faceDetect img = some (faceImg, faceBox) →
        (m.face_classification faceImg = 0 →
          (noEyeClassify m img viz).1 = PassengerState.AWAKE) ∧
        (m.face_classification faceImg = 1 →
          (noEyeClassify m img viz).1 = PassengerState.SLEEPING)) ∧
    (m.faceDetect img = none →
        (noEyeClassify m img viz).1 = PassengerState.SLEEPING) := by
  constructor
  · intro faceImg faceBox hF
    constructor
    · intro hL
      cases viz <;> simp [noEyeClassify, hE, hF, hL]
    · intro hL
      cases viz <;> simp [noEyeClassify, hE, hF, hL]
  · intro hF
    cases viz <;> simp [noEyeClassify, hE, hF]

/-- Witness for `noeye_face_decisions`: three concrete adapter
instantiations covering the awake face, the sleeping face and the
missing face. -/
theorem noeye_face_decisions_witness :
    (noEyeClassify
      (NoEyeModels.mk (fun _ => false)
        (fun _ => some (Img.mk 2 2 (fun _ _ => 0), (0, 1, 0, 1)))
        (fun _ => 0))
      (Img.mk 4 4 (fun _ _ => 1)) false).1 = PassengerState.AWAKE ∧
    (noEyeClassify
      (NoEyeModels.mk (fun _ => false)
        (fun _ => some (Img.mk 2 2 (fun _ _ => 0), (0, 1, 0, 1)))
        (fun _ => 1))
      (Img.mk 4 4 (fun _ _ => 1)) false).1 = PassengerState.SLEEPING ∧
    (noEyeClassify
      (NoEyeModels.mk (fun _ => false) (fun _ => none) (fun _ => 0))
      (Img.mk 4 4 (fun _ _ => 1)) false).1 = PassengerState.SLEEPING :=
  ⟨((noeye_face_decisions
      (NoEyeModels.mk (fun _ => false)
        (fun _ => some (Img.mk 2 2 (fun _ _ => 0), (0, 1, 0, 1)))
        (fun _ => 0))
      (Img.mk 4 4 (fun _ _ => 1)) false rfl).1
      (Img.mk 2 2 (fun _ _ => 0)) (0, 1, 0, 1) rfl).1 rfl,
   ((noeye_face_decisions
      (NoEyeModels.mk (fun _ => false)
        (fun _ => some (Img.mk 2 2 (fun _ _ => 0), (0, 1, 0, 1)))
        (fun _ => 1))
      (Img.mk 4 4 (fun _ _ => 1)) false rfl).1
      (Img.mk 2 2 (fun _ _ => 0)) (0, 1, 0, 1) rfl).2 rfl,
   (noeye_face_decisions
      (NoEyeModels.mk (fun _ => false) (fun _ => none) (fun _ => 0))
      (Img.mk 4 4 (fun _ _ => 1)) false rfl).2 rfl⟩

/-! ## C5: Full variant hand fallback -/

/-- C5: In the Full variant, on a non-empty seat where face detection
reports no face, `classify` returns AWAKE iff the hand detector finds
at least one hand in the cropped region — the image cropped by
`crop_vertically` (top 80% of rows) and then `crop_horizontally`
(middle 50% of columns) — and SLEEPING when it finds none, in both
modes. -/
theorem full_noface_hand_fallback (m : FullModels) (img : Img) (viz : Bool)
    (hE : m.is_empty_model img = false)
    (hF : m.faceDetect img = none) :
    (m.hand_model (crop_horizontally (crop_vertically img)) ≠ [] →
      (fullClassify m img viz).1 = PassengerState.AWAKE) ∧
    (m.hand_model (crop_horizontally (crop_vertically img)) = [] →
      (fullClassify m img viz).1 = PassengerState.SLEEPING) := by
  have hO := eyeOpenStage_of_noface m img hF
  constructor
  · intro hh
    have hd : (detect_hands m.hand_model
        (crop_horizontally (crop_vertically img))).1 = true := by
      simp [detect_hands, List.length_eq_zero, hh]
    cases viz <;> simp [fullClassify, hE, hO, hd]
  · intro hh
    have hd : (detect_hands m.hand_model
        (crop_horizontally (crop_vertically img))).1 = false := by
      simp [detect_hands, hh]
    cases viz <;> simp [fullClassify, hE, hO, hd]

/-- Witness for `full_noface_hand_fallback`: one adapter set with a
hand detection (AWAKE) and one with none (SLEEPING). -/
theorem full_noface_hand_fallback_witness :
    (fullClassify
      (FullModels.mk (fun _ => false) (fun _ => none)
        (fun _ => ([], [])) (fun _ => 0)
        (fun _ => [HandDetection.mk 0 "hand" 1 2 3 4 5]))
      (Img.mk 8 8 (fun _ _ => 5)) false).1 = PassengerState.AWAKE ∧
    (fullClassify
      (FullModels.mk (fun _ => false) (fun _ => none)
        (fun _ => ([], [])) (fun _ => 0) (fun _ => []))
      (Img.mk 8 8 (fun _ _ => 5)) false).1 = PassengerState.SLEEPING :=
  ⟨(full_noface_hand_fallback
      (FullModels.mk (fun _ => false) (fun _ => none)
        (fun _ => ([], [])) (fun _ => 0)
        (fun _ => [HandDetection.mk 0 "hand" 1 2 3 4 5]))
      (Img.mk 8 8 (fun _ _ => 5)) false rfl rfl).1 (by decide),
   (full_noface_hand_fallback
      (FullModels.mk (fun _ => false) (fun _ => none)
        (fun _ => ([], [])) (fun _ => 0) (fun _ => []))
      (Img.mk 8 8 (fun _ _ => 5)) false rfl rfl).2 rfl⟩

/-! ## C1: emptiness short-circuit -/

/-- C1 counterexample: an input on which the emptiness detector reports
true but `FullPipeline.classify` with diagnostics requested returns
AWAKE, not NOTTHERE — the downstream open-eye stage overwrites the
NOTTHERE state in diagnostic mode. -/
theorem full_empty_viz_not_notthere :
    (FullModels.mk (fun _ => true)
        (fun _ => some (Img.mk 2 2 (fun _ _ => 0), (0, 1, 0, 1)))
        (fun _ => ([Img.mk 1 1 (fun _ _ => 1)], [(0, 1, 0, 1)]))
        (fun r => r.pix 0 0)
        (fun _ => [])).is_empty_model (Img.mk 4 4 (fun _ _ => 0)) = true ∧
    (fullClassify
      (FullModels.mk (fun _ => true)
        (fun _ => some (Img.mk 2 2 (fun _ _ => 0), (0, 1, 0, 1)))
        (fun _ => ([Img.mk 1 1 (fun _ _ => 1)], [(0, 1, 0, 1)]))
        (fun r => r.pix 0 0)
        (fun _ => []))
      (Img.mk 4 4 (fun _ _ => 0)) true).1 ≠ PassengerState.NOTTHERE := by
  constructor
  · rfl
  · decide

/-- C1 amended: when the emptiness detector reports true, `classify`
with diagnostics OFF returns NOTTHERE regardless of the downstream
stages, in both variants; with diagnostics ON the NOTTHERE state is
returned only as long as no later stage overwrites it — in the Full
variant provided no open eye and no hand is found, in the NoEye variant
provided no face is detected. -/
theorem empty_shortcircuit_amended (mF : FullModels) (mN : NoEyeModels)
    (imgF imgN : Img)
    (hEF : mF.is_empty_model imgF = true)
    (hEN : mN.is_empty_model imgN = true) :
    (fullClassify mF imgF false).1 = PassengerState.NOTTHERE ∧
    (noEyeClassify mN imgN false).1 = PassengerState.NOTTHERE ∧
    (eyeOpenStage mF imgF = false →
      mF.hand_model (crop_horizontally (crop_vertically imgF)) = [] →
      (fullClassify mF imgF true).1 = PassengerState.NOTTHERE) ∧
    (mN.faceDetect imgN = none →
      (noEyeClassify mN imgN true).1 = PassengerState.NOTTHERE) := by
  refine ⟨by simp [fullClassify, hEF], by simp [noEyeClassify, hEN], ?_, ?_⟩
  · intro hO hh
    have hd : (detect_hands mF.hand_model
        (crop_horizontally (crop_vertically imgF))).1 = false := by
      simp [detect_hands, hh]
    simp [fullClassify, hEF, hO, hd]
  · intro hF
    simp [noEyeClassify, hEN, hF]

/-- Witness for `empty_shortcircuit_amended` at concrete adapters with
an empty seat and silent downstream stages. -/
theorem empty_shortcircuit_amended_witness :
    (fullClassify
      (FullModels.mk (fun _ => true) (fun _ => none)
        (fun _ => ([], [])) (fun _ => 0) (fun _ => []))
      (Img.mk 4 4 (fun _ _ => 0)) false).1 = PassengerState.NOTTHERE ∧
    (noEyeClassify
      (NoEyeModels.mk (fun _ => true) (fun _ => none) (fun _ => 0))
      (Img.mk 4 4 (fun _ _ => 0)) false).1 = PassengerState.NOTTHERE ∧
    (fullClassify
      (FullModels.mk (fun _ => true) (fun _ => none)
        (fun _ => ([], [])) (fun _ => 0) (fun _ => []))
      (Img.mk 4 4 (fun _ _ => 0)) true).1 = PassengerState.NOTTHERE ∧
    (noEyeClassify
      (NoEyeModels.mk (fun _ => true) (fun _ => none) (fun _ => 0))
      (Img.mk 4 4 (fun _ _ => 0)) true).1 = PassengerState.NOTTHERE := by
  have h := empty_shortcircuit_amended
    (FullModels.mk (fun _ => true) (fun _ => none)
      (fun _ => ([], [])) (fun _ => 0) (fun _ => []))
    (NoEyeModels.mk (fun _ => true) (fun _ => none) (fun _ => 0))
    (Img.mk 4 4 (fun _ _ => 0)) (Img.mk 4 4 (fun _ _ => 0)) rfl rfl
  exact ⟨h.1, h.2.1, h.2.2.1 rfl rfl, h.2.2.2 rfl⟩

/-! ## C2: diagnostics do not change the state -/

/-- C2 counterexample: fixed stage-adapter outputs (empty seat, face
classified awake) on which `NoEyePipeline.classify` returns AWAKE with
the diagnostics flag true but NOTTHERE with it false. -/
theorem noeye_viz_changes_state :
    (noEyeClassify
      (NoEyeModels.mk (fun _ => true)
        (fun _ => some (Img.mk 2 2 (fun _ _ => 0), (0, 1, 0, 1)))
        (fun _ => 0))
      (Img.mk 4 4 (fun _ _ => 0)) true).1 ≠
    (noEyeClassify
      (NoEyeModels.mk (fun _ => true)
        (fun _ => some (Img.mk 2 2 (fun _ _ => 0), (0, 1, 0, 1)))
        (fun _ => 0))
      (Img.mk 4 4 (fun _ _ => 0)) false).1 := by
  decide

/-- C2 amended: whenever the emptiness detector reports false,
`classify` with the diagnostics flag true returns the same
`PassengerState` as with it false, for both variants; when the detector
reports true the two modes may disagree (the diagnostic pass lets later
stages overwrite NOTTHERE). -/
theorem viz_preserves_state_amended (mF : FullModels) (mN : NoEyeModels)
    (imgF imgN : Img)
    (hEF : mF.is_empty_model imgF = false)
    (hEN : mN.is_empty_model imgN = false) :
    (fullClassify mF imgF true).1 = (fullClassify mF imgF false).1 ∧
    (noEyeClassify mN imgN true).1 = (noEyeClassify mN imgN false).1 := by
  constructor
  · cases hO : eyeOpenStage mF imgF <;>
      cases hd : (detect_hands mF.hand_model
        (crop_horizontally (crop_vertically imgF))).1 <;>
      simp [fullClassify, hEF, hO, hd]
  · cases hF : mN.faceDetect imgN with
    | none => simp [noEyeClassify, hEN, hF]
    | some fr =>
        by_cases hL : mN.face_classification fr.1 = 0 <;>
          simp [noEyeClassify, hEN, hF, hL]

/-- Witness for `viz_preserves_state_amended` at concrete non-empty
adapters. -/
theorem viz_preserves_state_amended_witness :
    (fullClassify
      (FullModels.mk (fun _ => false) (fun _ => none)
        (fun _ => ([], [])) (fun _ => 0) (fun _ => []))
      (Img.mk 4 4 (fun _ _ => 3)) true).1 =
    (fullClassify
      (FullModels.mk (fun _ => false) (fun _ => none)
        (fun _ => ([], [])) (fun _ => 0) (fun _ => []))
      (Img.mk 4 4 (fun _ _ => 3)) false).1 ∧
    (noEyeClassify
      (NoEyeModels.mk (fun _ => false) (fun _ => none) (fun _ => 1))
      (Img.mk 4 4 (fun _ _ => 3)) true).1 =
    (noEyeClassify
      (NoEyeModels.mk (fun _ => false) (fun _ => none) (fun _ => 1))
      (Img.mk 4 4 (fun _ _ => 3)) false).1 :=
  viz_preserves_state_amended
    (FullModels.mk (fun _ => false) (fun _ => none)
      (fun _ => ([], [])) (fun _ => 0) (fun _ => []))
    (NoEyeModels.mk (fun _ => false) (fun _ => none) (fun _ => 1))
    (Img.mk 4 4 (fun _ _ => 3)) (Img.mk 4 4 (fun _ _ => 3)) rfl rfl

/-! ## C6: default of the diagnostics flag -/

/-- C6 counterexample: `NoEyePipeline.classify` declares `viz : bool =
True`, so a call with only the image argument both produces a
diagnostic file (second component true) and, on this input (empty seat,
face classified sleeping), returns a different state than
`classify(image, viz=False)` — refuting "for both variants the flag
defaults to false". -/
theorem noeye_default_not_false :
    (noEyeClassify
      (NoEyeModels.mk (fun _ => true)
        (fun _ => some (Img.mk 2 2 (fun _ _ => 0), (0, 1, 0, 1)))
        (fun _ => 1))
      (Img.mk 4 4 (fun _ _ => 2)) NoEyePipeline.classifyVizDefault).2 = true ∧
    (noEyeClassify
      (NoEyeModels.mk (fun _ => true)
        (fun _ => some (Img.mk 2 2 (fun _ _ => 0), (0, 1, 0, 1)))
        (fun _ => 1))
      (Img.mk 4 4 (fun _ _ => 2)) NoEyePipeline.classifyVizDefault).1 ≠
    (noEyeClassify
      (NoEyeModels.mk (fun _ => true)
        (fun _ => some (Img.mk 2 2 (fun _ _ => 0), (0, 1, 0, 1)))
        (fun _ => 1))
      (Img.mk 4 4 (fun _ _ => 2)) false).1 := by
  constructor
  · rfl
  · decide

/-- C6 amended: the Full variant's diagnostics flag defaults to false —
a call with only the image argument equals `classify(image, false)` and
produces no diagnostic file output; the NoEye variant's flag instead
defaults to TRUE — a call with only the image argument equals
`classify(image, true)` and always produces a diagnostic file. -/
theorem classify_viz_defaults_amended (mF : FullModels) (mN : NoEyeModels)
    (imgF imgN : Img) :
    fullClassify mF imgF FullPipeline.classifyVizDefault
      = fullClassify mF imgF false ∧
    (fullClassify mF imgF FullPipeline.classifyVizDefault).2 = false ∧
    noEyeClassify mN imgN NoEyePipeline.classifyVizDefault
      = noEyeClassify mN imgN true ∧
    (noEyeClassify mN imgN NoEyePipeline.classifyVizDefault).2 = true := by
  refine ⟨rfl, ?_, rfl, ?_⟩
  · cases hE : mF.is_empty_model imgF <;>
      cases hO : eyeOpenStage mF imgF <;>
      cases hd : (detect_hands mF.hand_model
        (crop_horizontally (crop_vertically imgF))).1 <;>
      simp [fullClassify, FullPipeline.classifyVizDefault, hE, hO, hd]
  · cases hE : mN.is_empty_model imgN <;>
      cases hF : mN.faceDetect imgN <;>
      simp [noEyeClassify, NoEyePipeline.classifyVizDefault, hE, hF] <;>
      split <;> simp

/-! ## C9: undecodable path fails with ImageLoadError -/

/-- C9: for every path argument that does not resolve to a decodable
image, `classify` (either variant, any diagnostics flag) fails with an
`ImageLoadError` and never returns a `PassengerState` for that call. -/
theorem classify_undecodable_path_fails (decode : String → Option Img)
    (mF : FullModels) (mN : NoEyeModels) (path : String) (vizF vizN : Bool)
    (hdec : decode path = none) :
    fullClassifyChecked decode mF (Sum.inl path) vizF
      = Except.error ClassifyError.ImageLoadError ∧
    noEyeClassifyChecked decode mN (Sum.inl path) vizN
      = Except.error ClassifyError.ImageLoadError ∧
    (∀ s, fullClassifyChecked decode mF (Sum.inl path) vizF ≠ Except.ok s) ∧
    (∀ s, noEyeClassifyChecked decode mN (Sum.inl path) vizN ≠ Except.ok s) := by
  refine ⟨?_, ?_, ?_, ?_⟩ <;>
    simp [fullClassifyChecked, noEyeClassifyChecked, readImage, hdec]

/-- Witness for `classify_undecodable_path_fails`: a decoder that
rejects every path. -/
theorem classify_undecodable_path_fails_witness :
    fullClassifyChecked (fun _ => none)
      (FullModels.mk (fun _ => false) (fun _ => none)
        (fun _ => ([], [])) (fun _ => 0) (fun _ => []))
      (Sum.inl "not_an_image.jpg") false
      = Except.error ClassifyError.ImageLoadError ∧
    noEyeClassifyChecked (fun _ => none)
      (NoEyeModels.mk (fun _ => false) (fun _ => none) (fun _ => 0))
      (Sum.inl "not_an_image.jpg") true
      = Except.error ClassifyError.ImageLoadError := by
  have h := classify_undecodable_path_fails (fun _ => none)
    (FullModels.mk (fun _ => false) (fun _ => none)
      (fun _ => ([], [])) (fun _ => 0) (fun _ => []))
    (NoEyeModels.mk (fun _ => false) (fun _ => none) (fun _ => 0))
    "not_an_image.jpg" false true rfl
  exact ⟨h.1, h.2.1⟩

/-! ## C7: remapping a cropped-frame box to the parent frame -/

/-- C7: for every box with nonnegative x-coordinates measured in a
child frame obtained by horizontal cropping with keep fraction `k ∈
[0,1]` of a parent of width `W`, `transform_xxyy_for_cropped_img`
returns the box shifted by the offset `W·(1-k)/2` (truncated to an
integer, which for an integral box is the floor of the offset) on both
x-coordinates and by 0 on both y-coordinates; and for `k = 1/2` that
offset is exactly the left column index `int(W·0.25)` at which
`crop_horizontally` cuts, i.e. the box's true location in the parent
frame. -/
theorem transform_remaps_to_parent (img : Img) (k : ℚ) (x1 x2 y1 y2 : ℤ)
    (hx1 : 0 ≤ x1) (hx2 : 0 ≤ x2) (hk0 : 0 ≤ k) (hk1 : k ≤ 1) :
    transform_xxyy_for_cropped_img img (x1, x2, y1, y2) k
      = (x1 + ⌊(img.width : ℚ) * (1 - k) / 2⌋,
         x2 + ⌊(img.width : ℚ) * (1 - k) / 2⌋, y1, y2) ∧
    ⌊(img.width : ℚ) * (1 - (1/2 : ℚ)) / 2⌋ = pyint ((img.width : ℚ) * 0.25) := by
  have hoff : (0 : ℚ) ≤ (img.width : ℚ) * (1 - k) / 2 := by
    apply div_nonneg _ (by norm_num)
    apply mul_nonneg (by positivity)
    linarith
  constructor
  · simp only [transform_xxyy_for_cropped_img, add_zero]
    rw [pyint_intCast_add x1 _ hx1 hoff, pyint_intCast_add x2 _ hx2 hoff,
      pyint_intCast y1, pyint_intCast y2]
  · have h4 : (img.width : ℚ) * (1 - (1/2 : ℚ)) / 2 = (img.width : ℚ) * 0.25 := by
      norm_num
      ring
    rw [h4]
    unfold pyint
    rw [if_pos (by positivity)]

/-- Witness for `transform_remaps_to_parent`: the claim's concrete
instance — parent width 100, keep 0.5, child box (0,10,0,10) maps to
(25,35,0,10). -/
theorem transform_remaps_to_parent_witness :
    transform_xxyy_for_cropped_img (Img.mk 100 100 (fun _ _ => 0))
      (0, 10, 0, 10) (1/2) = (25, 35, 0, 10) := by
  have h := transform_remaps_to_parent (Img.mk 100 100 (fun _ _ => 0)) (1/2)
    0 10 0 10 (by decide) (by decide) (by norm_num) (by norm_num)
  rw [h.1]
  norm_num

/-! ## C8: the concrete crops at size 100 -/

/-- C8: `crop_horizontally` on an image of width 100 keeps the columns
`[25, 75)` — height unchanged, width 50, pixel `(r, c)` of the crop
equal to pixel `(r, 25 + c)` of the input — and `crop_vertically` on an
image of height 100 keeps the rows `[0, 80)` — height 80, width and
pixel lookup unchanged.  Both are pure functions of the input image. -/
theorem crops_at_size_100 (imgH imgV : Img)
    (hW : imgH.width = 100) (hH : imgV.height = 100) :
    ((crop_horizontally imgH).height = imgH.height ∧
     (crop_horizontally imgH).width = 50 ∧
     ∀ r c, (crop_horizontally imgH).pix r c = imgH.pix r (25 + c)) ∧
    ((crop_vertically imgV).height = 80 ∧
     (crop_vertically imgV).width = imgV.width ∧
     ∀ r c, (crop_vertically imgV).pix r c = imgV.pix r c) := by
  have hx25 : (pyint ((imgH.width : ℚ) * 0.25)).toNat = 25 := by
    rw [hW]; norm_num [pyint]; decide
  have hx75 : (pyint ((imgH.width : ℚ) * 0.75)).toNat = 75 := by
    rw [hW]; norm_num [pyint]; decide
  have hv80 : (pyint ((imgV.height : ℚ) * 0.8)).toNat = 80 := by
    rw [hH]; norm_num [pyint]; decide
  refine ⟨⟨rfl, ?_, ?_⟩, ?_, rfl, fun r c => rfl⟩
  · show min ((pyint ((imgH.width : ℚ) * 0.75)).toNat) imgH.width
        - (pyint ((imgH.width : ℚ) * 0.25)).toNat = 50
    rw [hx25, hx75, hW]
    decide
  · intro r c
    show imgH.pix r ((pyint ((imgH.width : ℚ) * 0.25)).toNat + c)
        = imgH.pix r (25 + c)
    rw [hx25]
  · show min ((pyint ((imgV.height : ℚ) * 0.8)).toNat) imgV.height = 80
    rw [hv80, hH]
    decide

/-- Witness for `crops_at_size_100` on a concrete 100×100 image. -/
theorem crops_at_size_100_witness :
    (crop_horizontally (Img.mk 100 100 (fun r c => r + c))).height = 100 ∧
    (crop_horizontally (Img.mk 100 100 (fun r c => r + c))).width = 50 ∧
    (crop_horizontally (Img.mk 100 100 (fun r c => r + c))).pix 3 5
      = (Img.mk 100 100 (fun r c => r + c)).pix 3 (25 + 5) ∧
    (crop_vertically (Img.mk 100 100 (fun r c => r + c))).height = 80 ∧
    (crop_vertically (Img.mk 100 100 (fun r c => r + c))).width = 100 ∧
    (crop_vertically (Img.mk 100 100 (fun r c => r + c))).pix 7 9
      = (Img.mk 100 100 (fun r c => r + c)).pix 7 9 := by
  have h := crops_at_size_100 (Img.mk 100 100 (fun r c => r + c))
    (Img.mk 100 100 (fun r c => r + c)) rfl rfl
  exact ⟨h.1.1, h.1.2.1, h.1.2.2 3 5, h.2.1, h.2.2.1, h.2.2.2 7 9⟩

/-! ## C10: visualize draws on a copy only -/

/-- A fold of in-place draws on buffer `j` never changes buffer
`i ≠ j`. -/
lemma foldl_updateBuf_apply {α : Type} (j i : ℕ) (hij : i ≠ j)
    (F : Heap → α → Img → Img) :
    ∀ (l : List α) (acc : Heap),
      (l.foldl (fun a x => updateBuf a j (F a x)) acc) i = acc i := by
  intro l
  induction l with
  | nil => intro acc; rfl
  | cons x xs ih =>
      intro acc
      rw [List.foldl_cons, ih]
      simp [updateBuf, hij]

/-- C10: for every drawing semantics, heap, box combination, label,
trace text and unique id, `visualize` leaves the original image buffer
unchanged — all rectangles and text go to the freshly allocated copy
`newId` — and the only side effect it records is the single composite
`[original | annotated]` output file (none at all on the
`TypeError` path). -/
theorem visualize_preserves_original (ops : DrawOps) (h : Heap)
    (origId newId : ℕ) (face_xxyy : Option Box)
    (eyes_xxyy hands_xxyy : List Box) (label text uuid : String)
    (hne : newId ≠ origId) :
    (FullPipeline.visualize ops h origId newId face_xxyy eyes_xxyy hands_xxyy
        label text uuid).1 origId = h origId ∧
    ((FullPipeline.visualize ops h origId newId face_xxyy eyes_xxyy hands_xxyy
        label text uuid).2.2 = false →
      (FullPipeline.visualize ops h origId newId face_xxyy eyes_xxyy hands_xxyy
          label text uuid).2.1
        = [("full_pipeline_eval/" ++ label ++ "_" ++ uuid ++ ".jpg",
            hstack (h origId)
              ((FullPipeline.visualize ops h origId newId face_xxyy eyes_xxyy
                  hands_xxyy label text uuid).1 newId))]) ∧
    ((FullPipeline.visualize ops h origId newId face_xxyy eyes_xxyy hands_xxyy
        label text uuid).2.2 = true →
      (FullPipeline.visualize ops h origId newId face_xxyy eyes_xxyy hands_xxyy
          label text uuid).2.1 = []) := by
  have hio : origId ≠ newId := Ne.symm hne
  by_cases hc : face_xxyy = none ∧ eyes_xxyy ≠ []
  · refine ⟨?_, ?_, ?_⟩
    · simp only [FullPipeline.visualize]
      rw [if_pos hc, hc.1]
      simp
    · simp only [FullPipeline.visualize]
      rw [if_pos hc]
      simp
    · simp only [FullPipeline.visualize]
      rw [if_pos hc]
      simp
  · refine ⟨?_, ?_, ?_⟩
    · simp only [FullPipeline.visualize, if_neg hc]
      rw [foldl_updateBuf_apply newId origId hio, foldl_updateBuf_apply newId origId hio,
        foldl_updateBuf_apply newId origId hio]
      cases face_xxyy <;> simp [updateBuf, hio]
    · intro _
      simp only [FullPipeline.visualize, if_neg hc]
      rw [foldl_updateBuf_apply newId origId hio, foldl_updateBuf_apply newId origId hio,
        foldl_updateBuf_apply newId origId hio]
      cases face_xxyy <;> simp [updateBuf, hio]
    · intro herr
      simp only [FullPipeline.visualize, if_neg hc] at herr
      simp at herr

/-- Witness for `visualize_preserves_original`: a concrete heap with
the original at buffer 0 and the copy at buffer 1. -/
theorem visualize_preserves_original_witness :
    (FullPipeline.visualize
        (DrawOps.mk (fun im _ _ _ _ => im) (fun im _ _ _ _ => im))
        (fun _ => Img.mk 2 2 (fun _ _ => 7)) 0 1 (some (0, 2, 0, 2))
        [(0, 1, 0, 1)] [(0, 1, 0, 1)] "awake" "Seat is not empty." "u1").1 0
      = (fun _ => Img.mk 2 2 (fun _ _ => 7) : Heap) 0 ∧
    (FullPipeline.visualize
        (DrawOps.mk (fun im _ _ _ _ => im) (fun im _ _ _ _ => im))
        (fun _ => Img.mk 2 2 (fun _ _ => 7)) 0 1 (some (0, 2, 0, 2))
        [(0, 1, 0, 1)] [(0, 1, 0, 1)] "awake" "Seat is not empty." "u1").2.1
      = [("full_pipeline_eval/" ++ "awake" ++ "_" ++ "u1" ++ ".jpg",
          hstack ((fun _ => Img.mk 2 2 (fun _ _ => 7) : Heap) 0)
            ((FullPipeline.visualize
                (DrawOps.mk (fun im _ _ _ _ => im) (fun im _ _ _ _ => im))
                (fun _ => Img.mk 2 2 (fun _ _ => 7)) 0 1 (some (0, 2, 0, 2))
                [(0, 1, 0, 1)] [(0, 1, 0, 1)] "awake" "Seat is not empty."
                "u1").1 1))] := by
  have hv := visualize_preserves_original
    (DrawOps.mk (fun im _ _ _ _ => im) (fun im _ _ _ _ => im))
    (fun _ => Img.mk 2 2 (fun _ _ => 7)) 0 1 (some (0, 2, 0, 2))
    [(0, 1, 0, 1)] [(0, 1, 0, 1)] "awake" "Seat is not empty." "u1"
    (by decide)
  exact ⟨hv.1, hv.2.1 rfl⟩
